import Mathlib

/-!
Shallow embedding of the NESEmu core (Rust) for specification checking.

Machine integers are modelled as `Nat`: `u8`/`u16` values are Nats kept
below 2^8 / 2^16 by the operations that the Rust type system performs
(wrapping arithmetic is written with an explicit `% 256` etc. exactly where
the source uses `wrapping_add` or relies on integer width).  Fixed-size
byte arrays are modelled as total functions `Nat → Nat`; an index that the
Rust code could drive out of bounds (a panic) is modelled explicitly by the
`crash` result.  Fallible operations (`Result` in the source) are modelled
by `RtResult` / `Option`.
-/

namespace NESEmu

/-- Result of a fallible runtime operation: `ok` mirrors Rust's `Ok`,
`err` mirrors `Err(&str)`, and `crash` marks control paths on which the
Rust code panics (out-of-bounds indexing, `todo!()`, `unwrap` on `Err`). -/
inductive RtResult (α : Type) where
  | ok (a : α)
  | err (msg : String)
  | crash
deriving DecidableEq

/-- Sequencing of fallible operations (Rust's `?` / method chaining). -/
def RtResult.bind {α β : Type} (r : RtResult α) (f : α → RtResult β) : RtResult β :=
  match r with
  | .ok a => f a
  | .err m => .err m
  | .crash => .crash

/-- Pointwise update of a byte-array model (`arr[a] = v` in the source). -/
def upd (f : Nat → Nat) (a v : Nat) : Nat → Nat :=
  fun b => if b = a then v else f b

/-! ## PaletteMemory (src/nes/palette_memory.rs) -/

/-- `PaletteMemory`: 32 bytes of palette RAM (`memory: [u8; 32]`). -/
structure PaletteMemory where
  memory : Nat → Nat

/-- `PaletteMemory::new`: all 32 cells zeroed. -/
def PaletteMemory.new : PaletteMemory :=
  ⟨fun _ => 0⟩

/-- `PaletteMemory::set_entry`.  The `_ => panic!` arm of the source match
is modelled by `none`. -/
def PaletteMemory.set_entry (p : PaletteMemory) (addr val : Nat) :
    Option PaletteMemory :=
  if 0x3F00 ≤ addr ∧ addr ≤ 0x3F0F then some ⟨upd p.memory (addr % 0x3F00) val⟩
  else if addr = 0x3F10 then some ⟨upd p.memory 0 val⟩
  else if 0x3F11 ≤ addr ∧ addr ≤ 0x3F13 then some ⟨upd p.memory (addr % 0x3F00) val⟩
  else if addr = 0x3F14 then some ⟨upd p.memory 4 val⟩
  else if 0x3F15 ≤ addr ∧ addr ≤ 0x3F17 then some ⟨upd p.memory (addr % 0x3F00) val⟩
  else if addr = 0x3F18 then some ⟨upd p.memory 8 val⟩
  else if 0x3F19 ≤ addr ∧ addr ≤ 0x3F1B then some ⟨upd p.memory (addr % 0x3F00) val⟩
  else if addr = 0x3F1C then some ⟨upd p.memory 0xC val⟩
  else if 0x3F1D ≤ addr ∧ addr ≤ 0x3F1F then some ⟨upd p.memory (addr % 0x3F00) val⟩
  else none

/-- `PaletteMemory::get_entry`: any address that is 0 mod 4 is first
redirected to 0x3F00; the `_ => panic!` arm is modelled by `none`. -/
def PaletteMemory.get_entry (p : PaletteMemory) (addr : Nat) : Option Nat :=
  let addr := if addr % 4 = 0 then 0x3F00 else addr
  if 0x3F00 ≤ addr ∧ addr ≤ 0x3F1F then some (p.memory (addr % 0x3F00))
  else none

/-! ## Controller (src/nes/controller.rs) -/

/-- `InputEvent` bit positions A..RIGHT are 0..7 and `END = 8`. -/
def InputEvent.END : Nat := 8

/-- `Controller`: strobe flag (`serial`), latched input byte, shift index. -/
structure Controller where
  serial : Bool
  inputState : Nat
  returnBit : Nat
deriving DecidableEq

/-- `Controller::new`. -/
def Controller.new : Controller :=
  ⟨true, 0, 0⟩

/-- `Controller::set_state_from_window`. -/
def Controller.set_state_from_window (c : Controller) (state : Nat) : Controller :=
  { c with inputState := state }

/-- `Controller::write_to_controller`. -/
def Controller.write_to_controller (c : Controller) (serial : Bool) : Controller :=
  { c with serial := serial, returnBit := 0 }

/-- `Controller::read_from_controller`: returns the selected bit; while the
strobe is low it shifts, returning 1 forever once the index reaches `END`.
`input_state.bit(i)` is modelled by `Nat.testBit`. -/
def Controller.read_from_controller (c : Controller) : Nat × Controller :=
  let res := if c.inputState.testBit c.returnBit then 1 else 0
  if !c.serial then
    if c.returnBit = InputEvent.END then (1, c)
    else (res, { c with returnBit := c.returnBit + 1 })
  else (res, c)

/-! ## PPU registers (src/nes/ppu/ppu_registers.rs) -/

/-- `PPURegisters`: the three byte registers are stored as raw bytes;
`ppuaddr` is the 16-bit VRAM pointer, `ppudata` the read buffer. -/
structure PPURegisters where
  ppuctrl : Nat
  ppumask : Nat
  ppustatus : Nat
  ppuaddr : Nat
  ppudata : Nat
  writeLatch : Bool
  fineX : Nat
  fineY : Nat
deriving DecidableEq

/-- `PPURegisters::default`. -/
def PPURegisters.default : PPURegisters :=
  ⟨0, 0, 0, 0, 0, false, 0, 0⟩

/-- PPUCTRL.VRAM_INC is bit 2; PPUCTRL.NMI_ENABLE is bit 7. -/
def PPUCTRL.VRAM_INC : Nat := 2

/-- PPUSTATUS.VBLANK is bit 7; SPRITE0_HIT is bit 6. -/
def PPUSTATUS.VBLANK : Nat := 7

/-! ## Cartridge (src/nes/cartridge.rs, src/nes/mappers/) -/

/-- Cartridge model: header fields and the ROM/RAM byte arrays that the
bus-level claims need.  `prg` is total; `prgLen` records the actual length
`16384 * prgBlocks` so out-of-bounds indexing can be detected.  CHR storage
is 8 KiB ROM or RAM (`chrIsRam`); reads through the PPU bus stay below
0x2000 and are always in bounds, so no CHR length is carried.
`mirrorVert` is Flags1::MIRRORING (0 = HORZ, 1 = VERT). -/
structure Cartridge where
  prgBlocks : Nat
  prgLen : Nat
  prg : Nat → Nat
  chrIsRam : Bool
  chr : Nat → Nat
  mirrorVert : Bool

/-- Modelled from the spec: `Bus::cpu_read_byte` routes 0x4020..=0xFFFF
through `Cartridge::mapper.map_prg_address`, whose implementation is not
among the sources (only its callers and its unit test are).  Modelled from
the spec's Mapper 0 contract: addresses are folded into a 16 KiB or 32 KiB
window based at 0x8000 (if `prg_blocks == 1`, 0xC000..=0xFFFF mirrors
0x8000..=0xBFFF), and addresses the window does not cover fail.  This
agrees with the repository's own `Mapper000::prg_read` and with the unit
test `map_prg_address(0xFFFC) = 0x3FFC`, `map_prg_address(0xC000) = 0` for
a one-block cartridge. -/
def map_prg_address (prgBlocks addr : Nat) : RtResult Nat :=
  if 0x8000 ≤ addr ∧ addr ≤ 0xFFFF then
    .ok ((addr - 0x8000) % (if prgBlocks > 1 then 0x8000 else 0x4000))
  else .err "Bad prg address read on cartridge"

/-! ## Mapper000 (src/nes/mappers/mapper000.rs) -/

/-- `Mapper000`: owns its cartridge data; `prgRomSize` is the header's PRG
block count, `prgLen` the byte length of the PRG ROM vector. -/
structure Mapper000 where
  prgRomSize : Nat
  prgLen : Nat
  prg : Nat → Nat

/-- `Mapper000::prg_read` (the `Mapper` trait impl in the sources):
0x8000..=0xBFFF folds modulo 0x8000; 0xC000..=0xFFFF folds modulo 0x8000
for NROM-256 and modulo 0xC000 for NROM-128; anything else errors.  An
index beyond the PRG vector length would panic (`crash`). -/
def Mapper000.prg_read (m : Mapper000) (cpu_bus_address : Nat) : RtResult Nat :=
  let internal_addr : RtResult Nat :=
    if 0x8000 ≤ cpu_bus_address ∧ cpu_bus_address ≤ 0xBFFF then .ok 0x8000
    else if 0xC000 ≤ cpu_bus_address ∧ cpu_bus_address ≤ 0xFFFF then
      (if m.prgRomSize > 1 then .ok 0x8000 else .ok 0xC000)
    else .err "Bad prg address read on cartridge"
  internal_addr.bind fun d =>
    if cpu_bus_address % d < m.prgLen then .ok (m.prg (cpu_bus_address % d))
    else .crash

/-! ## Bus (src/nes/bus.rs) -/

/-- `Bus`: all system memories and memory-mapped devices.  `cpuRam`,
`ppuRam` are the 2 KiB RAMs; `oamRam` the 256-byte OAM; `oamAddr` the u8
OAM pointer. -/
structure Bus where
  cartridge : Cartridge
  cpuRam : Nat → Nat
  ppuRam : Nat → Nat
  oamRam : Nat → Nat
  oamAddr : Nat
  pendingDma : Bool
  dmaPageAddr : Nat
  ppuRegisters : PPURegisters
  paletteMemory : PaletteMemory
  controller : Controller

/-- `Bus::new` with an already-loaded cartridge (the file-parsing half of
the constructor is an external collaborator): every RAM is zeroed. -/
def Bus.new (cart : Cartridge) : Bus :=
  { cartridge := cart
    cpuRam := fun _ => 0
    ppuRam := fun _ => 0
    oamRam := fun _ => 0
    oamAddr := 0
    pendingDma := false
    dmaPageAddr := 0
    ppuRegisters := PPURegisters.default
    paletteMemory := PaletteMemory.new
    controller := Controller.new }

/-- `Bus::translate_nametable_addr`: nametable mirroring by the high byte
of the address; the `_ => panic!()` arms are `none`. -/
def Bus.translate_nametable_addr (b : Bus) (addr : Nat) : Option Nat :=
  let hi := (addr / 256) % 256
  if b.cartridge.mirrorVert then
    if 0x20 ≤ hi ∧ hi ≤ 0x23 then some (addr - 0x2000)
    else if 0x24 ≤ hi ∧ hi ≤ 0x27 then some (addr - 0x2400 + 0x400)
    else if 0x28 ≤ hi ∧ hi ≤ 0x2B then some (addr - 0x2800)
    else if 0x2C ≤ hi ∧ hi ≤ 0x2F then some (addr - 0x2C00 + 0x400)
    else none
  else
    if 0x20 ≤ hi ∧ hi ≤ 0x23 then some (addr - 0x2000)
    else if 0x24 ≤ hi ∧ hi ≤ 0x27 then some (addr - 0x2400)
    else if 0x28 ≤ hi ∧ hi ≤ 0x2B then some (addr - 0x2800 + 0x400)
    else if 0x2C ≤ hi ∧ hi ≤ 0x2F then some (addr - 0x2C00 + 0x400)
    else none

/-- `Bus::ppu_increment_vram_ptr`: adds 32 when PPUCTRL.VRAM_INC is set,
else 1; no reduction modulo 0x4000 (matching the source; the source's TODO
about a wrapping add is noted there). -/
def Bus.ppu_increment_vram_ptr (b : Bus) : Bus :=
  if b.ppuRegisters.ppuctrl.testBit PPUCTRL.VRAM_INC then
    { b with ppuRegisters := { b.ppuRegisters with ppuaddr := b.ppuRegisters.ppuaddr + 32 } }
  else
    { b with ppuRegisters := { b.ppuRegisters with ppuaddr := b.ppuRegisters.ppuaddr + 1 } }

/-- `Bus::cpu_read_ppu_register`.  The 0x2006 arm is `todo!()` in the
source, i.e. a panic (`crash`); the 0x2002 arm clears VBLANK and the write
latch only when `modify` is set; the 0x2007 arm performs the buffered read
and increments the VRAM pointer regardless of `modify`. -/
def Bus.cpu_read_ppu_register (b : Bus) (address : Nat) (modify : Bool) :
    RtResult (Nat × Bus) :=
  if address = 0x2000 then .ok (b.ppuRegisters.ppuctrl, b)
  else if address = 0x2001 then .ok (b.ppuRegisters.ppumask, b)
  else if address = 0x2002 then
    let val := b.ppuRegisters.ppustatus
    if modify then
      .ok (val, { b with ppuRegisters :=
        { b.ppuRegisters with
          ppustatus := b.ppuRegisters.ppustatus % 128
          writeLatch := false } })
    else .ok (val, b)
  else if address = 0x2003 then .ok (b.oamAddr, b)
  else if address = 0x2004 then .ok (b.oamRam b.oamAddr, b)
  else if address = 0x2005 then .ok (0, b)
  else if address = 0x2006 then .crash
  else if address = 0x2007 then
    let va := b.ppuRegisters.ppuaddr
    if va ≤ 0x1FFF then
      let res := b.ppuRegisters.ppudata
      let b1 := { b with ppuRegisters := { b.ppuRegisters with ppudata := b.cartridge.chr va } }
      .ok (res, b1.ppu_increment_vram_ptr)
    else if 0x2000 ≤ va ∧ va ≤ 0x2FFF then
      match b.translate_nametable_addr va with
      | some i =>
        let res := b.ppuRegisters.ppudata
        let b1 := { b with ppuRegisters := { b.ppuRegisters with ppudata := b.ppuRam i } }
        .ok (res, b1.ppu_increment_vram_ptr)
      | none => .crash
    else if 0x3F00 ≤ va ∧ va ≤ 0x3FFF then
      match b.paletteMemory.get_entry (0x3F00 ||| (va % 0x20)) with
      | some v => .ok (v, b.ppu_increment_vram_ptr)
      | none => .crash
    else .err "Bad read from PPU Bus by CPU"
  else .err "Bad Read on PPU register"

/-- `Bus::cpu_write_ppu_register`.  `set_bit_range(15, 8, v)` and
`set_bit_range(7, 0, v)` on the u16 `ppuaddr` are written with explicit
masks; OAMADDR wrap-increments (`wrapping_add(1)` is `% 256`); a CHR-ROM
write and a bad PPU address both return before the VRAM increment. -/
def Bus.cpu_write_ppu_register (b : Bus) (address value : Nat) : RtResult Bus :=
  if address = 0x2000 then
    .ok { b with ppuRegisters := { b.ppuRegisters with ppuctrl := value } }
  else if address = 0x2001 then
    .ok { b with ppuRegisters := { b.ppuRegisters with ppumask := value } }
  else if address = 0x2002 then
    .ok { b with ppuRegisters := { b.ppuRegisters with ppustatus := value } }
  else if address = 0x2003 then .ok { b with oamAddr := value }
  else if address = 0x2004 then
    .ok { b with
      oamRam := upd b.oamRam b.oamAddr value
      oamAddr := (b.oamAddr + 1) % 256 }
  else if address = 0x2005 then
    if !b.ppuRegisters.writeLatch then
      .ok { b with ppuRegisters := { b.ppuRegisters with fineX := value, writeLatch := true } }
    else
      .ok { b with ppuRegisters := { b.ppuRegisters with fineY := value, writeLatch := false } }
  else if address = 0x2006 then
    if !b.ppuRegisters.writeLatch then
      .ok { b with ppuRegisters :=
        { b.ppuRegisters with
          ppuaddr := (b.ppuRegisters.ppuaddr % 256) + 256 * (value % 256)
          writeLatch := true } }
    else
      .ok { b with ppuRegisters :=
        { b.ppuRegisters with
          ppuaddr := (b.ppuRegisters.ppuaddr / 256 * 256 + value % 256) % 0x4000
          writeLatch := false } }
  else if address = 0x2007 then
    let va := b.ppuRegisters.ppuaddr
    if va ≤ 0x1FFF then
      if b.cartridge.chrIsRam then
        let b1 := { b with cartridge := { b.cartridge with chr := upd b.cartridge.chr va value } }
        .ok b1.ppu_increment_vram_ptr
      else .ok b
    else if 0x2000 ≤ va ∧ va ≤ 0x2FFF then
      match b.translate_nametable_addr va with
      | some i => .ok ({ b with ppuRam := upd b.ppuRam i value }).ppu_increment_vram_ptr
      | none => .crash
    else if 0x3F00 ≤ va ∧ va ≤ 0x3FFF then
      match b.paletteMemory.set_entry (0x3F00 ||| (va % 0x20)) value with
      | some pm => .ok ({ b with paletteMemory := pm }).ppu_increment_vram_ptr
      | none => .crash
    else .err "Bad write to PPU Bus by CPU"
  else .err "Bad Write on PPU Register"

/-- `Bus::cpu_read_byte` (the modifying CPU-bus read).  The PRG arm routes
through `map_prg_address` and then indexes the PRG ROM vector (an index
beyond its length would panic).  Match arms appear in source order. -/
def Bus.cpu_read_byte (b : Bus) (address : Nat) : RtResult (Nat × Bus) :=
  if address ≤ 0x1FFF then .ok (b.cpuRam (address % 0x0800), b)
  else if 0x2000 ≤ address ∧ address ≤ 0x3FFF then b.cpu_read_ppu_register address true
  else if 0x4000 ≤ address ∧ address ≤ 0x4015 then .ok (0, b)
  else if address = 0x4016 then
    let (v, c) := b.controller.read_from_controller
    .ok (v, { b with controller := c })
  else if address = 0x4017 then .ok (0, b)
  else if 0x4020 ≤ address ∧ address ≤ 0xFFFF then
    (map_prg_address b.cartridge.prgBlocks address).bind fun prg_addr =>
      if prg_addr < b.cartridge.prgLen then .ok (b.cartridge.prg prg_addr, b)
      else .crash
  else .err "Bad address read on Bus"

/-- `Bus::cpu_read_byte_no_modify`: the inspection read; PPU registers are
read with `modify = false` and the APU/controller range returns 0. -/
def Bus.cpu_read_byte_no_modify (b : Bus) (address : Nat) : RtResult (Nat × Bus) :=
  if address ≤ 0x1FFF then .ok (b.cpuRam (address % 0x0800), b)
  else if 0x2000 ≤ address ∧ address ≤ 0x3FFF then b.cpu_read_ppu_register address false
  else if 0x4000 ≤ address ∧ address ≤ 0x4017 then .ok (0, b)
  else if 0x4020 ≤ address ∧ address ≤ 0xFFFF then
    (map_prg_address b.cartridge.prgBlocks address).bind fun prg_addr =>
      if prg_addr < b.cartridge.prgLen then .ok (b.cartridge.prg prg_addr, b)
      else .crash
  else .err "Bad address read on Bus"

/-- `Bus::cpu_write_byte`.  The first arm is the source's `(0..=2048)`:
addresses 0..=2047 store directly into `cpu_ram` (no mirroring) and
address 2048 indexes one past the 2 KiB array, a panic.  The
0x4020..=0xFFFF arm delegates to the mapper's register write, a no-op for
Mapper 0 (`Mapper000::prg_write`).  Match arms appear in source order. -/
def Bus.cpu_write_byte (b : Bus) (address value : Nat) : RtResult Bus :=
  if address ≤ 2048 then
    if address < 2048 then .ok { b with cpuRam := upd b.cpuRam address value }
    else .crash
  else if 0x4000 ≤ address ∧ address ≤ 0x4013 then .ok b
  else if address = 0x4014 then
    .ok { b with dmaPageAddr := value * 256, pendingDma := true }
  else if address = 0x4015 then .ok b
  else if address = 0x4016 then
    .ok { b with controller := b.controller.write_to_controller (value.testBit 0) }
  else if address = 0x4017 then .ok b
  else if 0x2000 ≤ address ∧ address ≤ 0x3FFF then b.cpu_write_ppu_register address value
  else if 0x4020 ≤ address ∧ address ≤ 0xFFFF then .ok b
  else .err "Bad address write on Bus"

/-- Loop body of `Bus::process_dma`: copy `count` bytes starting at CPU RAM
index `addr` into OAM through OAMDATA writes.  `cpu_ram[addr]` with
`addr ≥ 2048` is an out-of-bounds panic; the `.unwrap()` on the register
write would also panic on an error. -/
def Bus.process_dma_loop (b : Bus) (addr count : Nat) : RtResult Bus :=
  match count with
  | 0 => .ok b
  | count + 1 =>
    if addr < 2048 then
      match b.cpu_write_ppu_register 0x2004 (b.cpuRam addr) with
      | .ok b1 => b1.process_dma_loop (addr + 1) count
      | _ => .crash
    else .crash

/-- `Bus::process_dma`: copies the 0x100 bytes at `dma_page_addr` into OAM
and clears the pending flag. -/
def Bus.process_dma (b : Bus) : RtResult Bus :=
  (b.process_dma_loop b.dmaPageAddr 0x100).bind fun b1 =>
    .ok { b1 with pendingDma := false }

/-! ## CPU (src/nes/cpu/mod.rs) -/

/-- `CPURegisters`: all fields as Nats (`stack_ptr` and `program_counter`
are usize in the source). -/
structure CPURegisters where
  accumulator : Nat
  xReg : Nat
  yReg : Nat
  stackPtr : Nat
  programCounter : Nat
  statusRegister : Nat
deriving DecidableEq

/-- `CPURegisters::new`: SP starts at 0xFF (the source comment says the
post-reset value should be 0xFD), PC 0, status 0x24. -/
def CPURegisters.new : CPURegisters :=
  { accumulator := 0
    xReg := 0
    yReg := 0
    stackPtr := 0xFF
    programCounter := 0
    statusRegister := 0x24 }

/-- `CPU::reset`: loads PC little-endian from 0xFFFC..0xFFFD via
`cpu_read_exact` (two `cpu_read_byte` calls), decrements SP by 3 (a usize
subtraction, which would panic below 3), and sets InterruptDisable
(bit 2).  The debug-only total-cycle counter is not modelled. -/
def CPU.reset (regs : CPURegisters) (b : Bus) : RtResult (CPURegisters × Bus) :=
  (b.cpu_read_byte 0xFFFC).bind fun (lo, b1) =>
    (b1.cpu_read_byte 0xFFFD).bind fun (hi, b2) =>
      if regs.stackPtr < 3 then .crash
      else
        .ok ({ regs with
          programCounter := lo + 256 * hi
          stackPtr := regs.stackPtr - 3
          statusRegister := regs.statusRegister ||| 0x04 }, b2)

/-! ## PPU step (src/nes/ppu/mod.rs) -/

/-- The PPU-side counters and NMI line of `PPU`.  The rendering-only
fields (`nametable_addr`, `x_scroll`, `y_scroll`, `secondary_oam`) do not
feed back into these fields or into PPUSTATUS/PPUCTRL except as noted on
`PPU.step`, and are not modelled. -/
structure PPUState where
  scanlines : Nat
  dots : Nat
  generatedInterrupt : Bool
deriving DecidableEq

/-- `PPU::new`: dot counter starts at 21 (power-up delay). -/
def PPUState.new : PPUState :=
  { scanlines := 0, dots := 21, generatedInterrupt := false }

/-- The "Handle vblank" tail of `PPU::step`: (241, 1) sets VBLANK (bit 7)
and latches the NMI line from PPUCTRL.NMI_ENABLE (bit 7); (261, 1) clears
VBLANK and SPRITE0_HIT (clearing bits 7 and 6 of a u8 is `% 64`). -/
def PPU.vblank_checks (p : PPUState) (r : PPURegisters) : PPUState × PPURegisters :=
  if p.scanlines = 241 ∧ p.dots = 1 then
    ({ p with generatedInterrupt := r.ppuctrl.testBit 7 },
     { r with ppustatus := r.ppustatus ||| 0x80 })
  else if p.scanlines = 261 ∧ p.dots = 1 then
    (p, { r with ppustatus := r.ppustatus % 64 })
  else (p, r)

/-- `PPU::step`, projected onto the dot/scanline counters, PPUSTATUS,
PPUCTRL and the NMI line.  Of the helpers the source invokes,
`draw_scanline` touches these fields only by possibly setting
PPUSTATUS.SPRITE0_HIT — that effect is abstracted by the `drawS0`
parameter (true iff a sprite-zero hit fired on the drawn scanline) —
`sprite_evaluation` touches none of them, and `prepare_next_frame` resets
the scanline counter and clears PPUCTRL's two NTABLE_ADDR bits before the
step returns the frame-finished flag (skipping the vblank checks, exactly
as the source's early return does).  Returns the new state, the new
registers, and the frame-finished flag. -/
def PPU.step (drawS0 : Bool) (p : PPUState) (r : PPURegisters) :
    PPUState × PPURegisters × Bool :=
  let dots1 := p.dots + 1
  if dots1 = 341 then
    let r1 :=
      if p.scanlines ≤ 239 ∧ drawS0 then { r with ppustatus := r.ppustatus ||| 0x40 }
      else r
    let sl1 := p.scanlines + 1
    if sl1 ≥ 262 then
      (⟨0, 0, p.generatedInterrupt⟩, { r1 with ppuctrl := r1.ppuctrl / 4 * 4 }, true)
    else
      let pr := PPU.vblank_checks ⟨sl1, 0, p.generatedInterrupt⟩ r1
      (pr.1, pr.2, false)
  else
    let pr := PPU.vblank_checks ⟨p.scanlines, dots1, p.generatedInterrupt⟩ r
    (pr.1, pr.2, false)

/-- `PPU::generated_interrupt`: reads and clears the pending-NMI line. -/
def PPU.generated_interrupt (p : PPUState) : Bool × PPUState :=
  (p.generatedInterrupt, { p with generatedInterrupt := false })

/-! ## Orchestrator (src/nes/mod.rs) -/

/-- The cycle count chosen by one iteration of the orchestrator loop:
when `dma_read_cycle` is set and a DMA is pending the DMA is processed and
the CPU is stalled for 513 cycles, otherwise the CPU steps and reports its
own cycle count (`cpuStepCycles`). -/
def NES.loop_cycles (dmaReadCycle : Bool) (b : Bus) (cpuStepCycles : Nat) : Nat :=
  if dmaReadCycle ∧ b.pendingDma then 513 else cpuStepCycles

/-! ## Concrete fixtures and auxiliary definitions used by the theorems -/

/-- A one-block NROM cartridge whose PRG bytes at 0x3FFC..=0x3FFD are
0x00, 0xC0 (reset vector 0xC000); every other byte is 0. -/
def testCart : Cartridge :=
  { prgBlocks := 1
    prgLen := 0x4000
    prg := fun a => if a = 0x3FFD then 0xC0 else 0
    chrIsRam := false
    chr := fun _ => 0
    mirrorVert := false }

/-- A freshly constructed bus holding `testCart`. -/
def testBus : Bus := Bus.new testCart

/-- `testBus`, with the VRAM pointer parked at 0x2000 and one nonzero
nametable byte so that a buffered-read refill is observable. -/
def busAt2000 : Bus :=
  { testBus with
    ppuRam := fun i => if i = 0 then 0x42 else 0
    ppuRegisters := { PPURegisters.default with ppuaddr := 0x2000 } }

/-- `testBus` with the VRAM pointer one step below the top of PPU space
(PPUCTRL = 0, so the increment is 1). -/
def busAt3FFF : Bus :=
  { testBus with ppuRegisters := { PPURegisters.default with ppuaddr := 0x3FFF } }

/-- `testBus` with the VRAM pointer already incremented past the top of
PPU space. -/
def busAt4000 : Bus :=
  { testBus with ppuRegisters := { PPURegisters.default with ppuaddr := 0x4000 } }

/-- A `Mapper000` over a 16 KiB (one-block) PRG ROM of zeros. -/
def testMapper : Mapper000 := ⟨1, 0x4000, fun _ => 0⟩

/-- Iterated controller reads: the list of values returned by `n`
consecutive `read_from_controller` calls. -/
def Controller.reads (c : Controller) : Nat → List Nat
  | 0 => []
  | n + 1 =>
    (c.read_from_controller).1 :: (c.read_from_controller).2.reads n

/-- The controller state left behind by `n` consecutive reads. -/
def Controller.read_many (c : Controller) : Nat → Controller
  | 0 => c
  | n + 1 => (c.read_from_controller).2.read_many n

/-- Controller states reachable through the public API (construction,
latching the window input, strobe writes, port reads). -/
inductive Controller.Reachable : Controller → Prop where
  | new : Controller.Reachable Controller.new
  | set_state (c : Controller) (v : Nat) (h : Controller.Reachable c) :
      Controller.Reachable (c.set_state_from_window v)
  | write (c : Controller) (s : Bool) (h : Controller.Reachable c) :
      Controller.Reachable (c.write_to_controller s)
  | read (c : Controller) (h : Controller.Reachable c) :
      Controller.Reachable (c.read_from_controller).2

/-! ## Theorems -/

/-- C1: the spec says CPU RAM is mirrored identically on the write path
and the read path over 0x0000..0x2000.  The source's write arm is
`(0..=2048)` with no `% 0x800`: a write inside the mirror region
0x0800..=0x1FFF is rejected with a bus error (shown at 0x1000), and a
write at 0x0800 = 2048 indexes one past the 2 KiB array and panics, so
nothing can be read back from any mirrored alias.  (The read path does
mirror: reading 0x0800 yields CPU RAM cell 0.) -/
theorem c1_cpu_ram_write_not_mirrored :
    Bus.cpu_write_byte testBus 0x1000 0xAB = RtResult.err "Bad address write on Bus" ∧
    Bus.cpu_write_byte testBus 0x0800 0xAB = RtResult.crash ∧
    Bus.cpu_read_byte testBus 0x0800 = RtResult.ok (testBus.cpuRam 0, testBus) := by
  refine ⟨rfl, rfl, rfl⟩

/-- C2: on `testCart` (reset vector bytes 0x00, 0xC0) the reset sequence
yields PC = 0xC000 and status = 0x24 as the spec says, but SP = 0xFC, not
the 0xFD the spec (and the source's own comment "Technically starts at
0xFD ... Match nestest") requires: `CPURegisters::new` seeds SP with 0xFF
and `reset` subtracts 3. -/
theorem c2_reset_stack_pointer :
    CPU.reset CPURegisters.new testBus =
      RtResult.ok
        ({ accumulator := 0, xReg := 0, yReg := 0, stackPtr := 0xFC,
           programCounter := 0xC000, statusRegister := 0x24 }, testBus) := by
  rfl

/-- C7: the modifying PPUSTATUS read behaves as claimed, but the claim's
second half fails: the "non-modifying" bus read still has side effects at
PPUDATA (0x2007).  On `busAt2000` the no-modify read returns the old
buffer (0) while refilling the buffer from VRAM (0x42) and advancing the
VRAM pointer from 0x2000 to 0x2001 — state visibly changes. -/
theorem c7_no_modify_read_mutates :
    Bus.cpu_read_byte_no_modify busAt2000 0x2007 =
      RtResult.ok (0, { busAt2000 with ppuRegisters :=
        { busAt2000.ppuRegisters with ppuaddr := 0x2001, ppudata := 0x42 } }) := by
  rfl

/-- C6 counterexample: the claim says a write to 0x3F10 + 4*i stores into
the same cell a read from 0x3F00 + 4*i returns.  For i = 1 on a fresh
palette, writing 0xAA at 0x3F14 and then reading 0x3F04 returns 0, not
0xAA: reads at addresses ≡ 0 (mod 4) are redirected to the universal
background cell 0x3F00, which the write did not touch. -/
theorem c6_counterexample :
    (PaletteMemory.new.set_entry 0x3F14 0xAA).bind
        (fun m => m.get_entry 0x3F04) ≠ some 0xAA := by
  decide

/-- C6 amended: for every i < 4, writes to 0x3F10 + 4*i and writes to
0x3F00 + 4*i are the same operation (they store into cell 4*i, hence
commute), and on read any palette address ≡ 0 (mod 4) returns the
universal background cell 0x3F00 (cell 0) — including 0x3F04/0x3F08/0x3F0C,
which is why the original claim's read-back clause fails for i ≥ 1. -/
theorem c6_palette_mirroring (p : PaletteMemory) (i v a : Nat)
    (hi : i < 4) (ha : a % 4 = 0) :
    p.set_entry (0x3F10 + 4 * i) v = p.set_entry (0x3F00 + 4 * i) v ∧
    p.get_entry a = some (p.memory 0) := by
  constructor
  · interval_cases i <;> rfl
  · simp [PaletteMemory.get_entry, ha]

/-- Witness for `c6_palette_mirroring` at i = 1, a = 8, on a fresh
palette. -/
theorem c6_palette_mirroring_witness :
    (1 : Nat) < 4 ∧ (8 : Nat) % 4 = 0 ∧
    (PaletteMemory.new.set_entry (0x3F10 + 4 * 1) 7 =
        PaletteMemory.new.set_entry (0x3F00 + 4 * 1) 7 ∧
     PaletteMemory.new.get_entry 8 = some (PaletteMemory.new.memory 0)) :=
  ⟨by norm_num, by norm_num,
    c6_palette_mirroring PaletteMemory.new 1 7 8 (by norm_num) (by norm_num)⟩

/-- C5: with the shared write latch in its initial (cleared) state — which
is what "no intervening PPUSTATUS read" guarantees, since a PPUSTATUS read
clears the latch — two consecutive CPU writes of v1 then v2 to PPUSCROLL
(0x2005) leave fine_x = v1, fine_y = v2 and the latch cleared again. -/
theorem c5_ppuscroll_double_write (b : Bus) (v1 v2 : Nat)
    (h : b.ppuRegisters.writeLatch = false) :
    ∃ b1 b2, Bus.cpu_write_byte b 0x2005 v1 = RtResult.ok b1 ∧
      Bus.cpu_write_byte b1 0x2005 v2 = RtResult.ok b2 ∧
      b2.ppuRegisters.fineX = v1 ∧ b2.ppuRegisters.fineY = v2 ∧
      b2.ppuRegisters.writeLatch = false := by
  obtain ⟨cart, cpuRam, ppuRam, oamRam, oamAddr, pd, dpa, regs, pm, ctl⟩ := b
  obtain ⟨rc, rm, rs, ra, rd, wl, fx, fy⟩ := regs
  have hwl : wl = false := h
  subst hwl
  exact ⟨_, _, rfl, rfl, rfl, rfl, rfl⟩

/-- Witness for `c5_ppuscroll_double_write` on a fresh bus with v1 = 3,
v2 = 5. -/
theorem c5_ppuscroll_double_write_witness :
    testBus.ppuRegisters.writeLatch = false ∧
    (∃ b1 b2, Bus.cpu_write_byte testBus 0x2005 3 = RtResult.ok b1 ∧
      Bus.cpu_write_byte b1 0x2005 5 = RtResult.ok b2 ∧
      b2.ppuRegisters.fineX = 3 ∧ b2.ppuRegisters.fineY = 5 ∧
      b2.ppuRegisters.writeLatch = false) :=
  ⟨rfl, c5_ppuscroll_double_write testBus 3 5 rfl⟩

/-- C9 counterexample: the claim says `prg_read` returns a byte for every
address in 0x4020..=0xFFFF, but at 0x4020 (indeed on all of
0x4020..=0x7FFF) Mapper 0 rejects the read with an error. -/
theorem c9_prg_read_low_range_fails :
    testMapper.prg_read 0x4020 = RtResult.err "Bad prg address read on cartridge" := by
  rfl

/-- C9 amended: for a well-formed Mapper 0 (PRG length 16 KiB × block
count, at least one block), `prg_read` returns a byte for every address in
0x8000..=0xFFFF and fails for every address outside that range (including
0x4020..=0x7FFF); when `prg_blocks = 1`, 0xC000..=0xFFFF mirrors
0x8000..=0xBFFF byte for byte. -/
theorem c9_mapper0_prg_window (m : Mapper000)
    (hlen : m.prgLen = 0x4000 * m.prgRomSize) (hsz : 1 ≤ m.prgRomSize) :
    (∀ addr, 0x8000 ≤ addr → addr ≤ 0xFFFF → ∃ v, m.prg_read addr = RtResult.ok v) ∧
    (∀ addr, addr < 0x8000 ∨ 0xFFFF < addr →
      m.prg_read addr = RtResult.err "Bad prg address read on cartridge") ∧
    (m.prgRomSize = 1 → ∀ k, k < 0x4000 →
      m.prg_read (0xC000 + k) = m.prg_read (0x8000 + k)) := by
  refine ⟨?_, ?_, ?_⟩
  · intro addr h1 h2
    unfold Mapper000.prg_read RtResult.bind
    by_cases hb : addr ≤ 0xBFFF
    · have hc : 0x8000 ≤ addr ∧ addr ≤ 0xBFFF := ⟨h1, hb⟩
      simp only [if_pos hc]
      have : addr % 0x8000 < m.prgLen := by
        rw [hlen]; have := Nat.mod_lt addr (show 0 < 0x8000 by norm_num); omega
      simp only [if_pos this]
      exact ⟨_, rfl⟩
    · have hc : ¬(0x8000 ≤ addr ∧ addr ≤ 0xBFFF) := by omega
      have hc2 : 0xC000 ≤ addr ∧ addr ≤ 0xFFFF := ⟨by omega, h2⟩
      simp only [if_neg hc, if_pos hc2]
      by_cases hs : m.prgRomSize > 1
      · simp only [if_pos hs]
        have : addr % 0x8000 < m.prgLen := by
          rw [hlen]; have := Nat.mod_lt addr (show 0 < 0x8000 by norm_num); omega
        simp only [if_pos this]
        exact ⟨_, rfl⟩
      · simp only [if_neg hs]
        have : addr % 0xC000 < m.prgLen := by
          rw [hlen]
          have h3 : addr % 0xC000 = addr - 0xC000 := by omega
          omega
        simp only [if_pos this]
        exact ⟨_, rfl⟩
  · intro addr h1
    unfold Mapper000.prg_read RtResult.bind
    have hc : ¬(0x8000 ≤ addr ∧ addr ≤ 0xBFFF) := by omega
    have hc2 : ¬(0xC000 ≤ addr ∧ addr ≤ 0xFFFF) := by omega
    simp only [if_neg hc, if_neg hc2]
  · intro hone k hk
    unfold Mapper000.prg_read RtResult.bind
    have hc : ¬(0x8000 ≤ 0xC000 + k ∧ 0xC000 + k ≤ 0xBFFF) := by omega
    have hc2 : 0xC000 ≤ 0xC000 + k ∧ 0xC000 + k ≤ 0xFFFF := by omega
    have hc3 : 0x8000 ≤ 0x8000 + k ∧ 0x8000 + k ≤ 0xBFFF := by omega
    have hs : ¬(m.prgRomSize > 1) := by omega
    simp only [if_neg hc, if_pos hc2, if_pos hc3, if_neg hs]
    have e1 : (0xC000 + k) % 0xC000 = k := by omega
    have e2 : (0x8000 + k) % 0x8000 = k := by omega
    rw [e1, e2]

/-- Witness for `c9_mapper0_prg_window` on `testMapper` (one PRG block):
0xC123 reads the same byte as 0x8123, 0x4020 fails, and 0xFFFC reads a
byte. -/
theorem c9_mapper0_prg_window_witness :
    testMapper.prg_read (0xC000 + 0x123) = testMapper.prg_read (0x8000 + 0x123) ∧
    testMapper.prg_read 0x4020 = RtResult.err "Bad prg address read on cartridge" ∧
    (∃ v, testMapper.prg_read 0xFFFC = RtResult.ok v) := by
  have h := c9_mapper0_prg_window testMapper rfl (by decide)
  exact ⟨h.2.2 rfl 0x123 (by norm_num), h.2.1 0x4020 (by norm_num),
    h.1 0xFFFC (by norm_num) (by norm_num)⟩

/-- API-reachable controller states keep the shift index at 0 whenever the
strobe is high: writes reset the index, and reads do not advance it while
the strobe is high. -/
theorem Controller.reachable_high_strobe_index (c : Controller)
    (h : Controller.Reachable c) : c.serial = true → c.returnBit = 0 := by
  induction h with
  | new => intro; rfl
  | set_state c v h ih =>
    intro hs
    exact ih hs
  | write c s h ih =>
    intro hs
    rfl
  | read c h ih =>
    by_cases hcs : c.serial
    · have hfix : (c.read_from_controller).2 = c := by
        simp [Controller.read_from_controller, hcs]
      rw [hfix]
      exact ih
    · simp only [Bool.not_eq_true] at hcs
      have hserial : (c.read_from_controller).2.serial = false := by
        by_cases hrb : c.returnBit = InputEvent.END <;>
          simp [Controller.read_from_controller, hcs, hrb]
      intro hs
      rw [hserial] at hs
      simp at hs

set_option maxHeartbeats 1000000 in
/-- C8: while the strobe is high every port read returns bit 0 of the
current input state and leaves the controller unchanged (using the
reachability invariant that the shift index is 0 then); after the strobe
is driven low, the first eight reads return the bits A, B, Select, Start,
Up, Down, Left, Right in order, ending with the shift index at 8; and any
read past the end of the sequence returns 1 without further state
change. -/
theorem c8_controller_serial_protocol :
    (∀ c : Controller, Controller.Reachable c → c.serial = true →
      c.read_from_controller = ((if c.inputState.testBit 0 then 1 else 0), c)) ∧
    (∀ c : Controller,
      (c.write_to_controller false).reads 8 =
        [if c.inputState.testBit 0 then 1 else 0,
         if c.inputState.testBit 1 then 1 else 0,
         if c.inputState.testBit 2 then 1 else 0,
         if c.inputState.testBit 3 then 1 else 0,
         if c.inputState.testBit 4 then 1 else 0,
         if c.inputState.testBit 5 then 1 else 0,
         if c.inputState.testBit 6 then 1 else 0,
         if c.inputState.testBit 7 then 1 else 0] ∧
      (c.write_to_controller false).read_many 8 =
        { serial := false, inputState := c.inputState, returnBit := 8 }) ∧
    (∀ c : Controller, c.serial = false → c.returnBit = 8 →
      c.read_from_controller = (1, c)) := by
  refine ⟨?_, ?_, ?_⟩
  · intro c hr hs
    have h0 := Controller.reachable_high_strobe_index c hr hs
    simp [Controller.read_from_controller, hs, h0]
  · intro c
    exact ⟨rfl, rfl⟩
  · intro c h1 h2
    simp [Controller.read_from_controller, h1, h2, InputEvent.END]

set_option maxHeartbeats 1000000 in
/-- Witness for `c8_controller_serial_protocol`: a fresh controller read
with the strobe high, the eight-read sequence for input 5 (A and Select
held), and a ninth read returning 1. -/
theorem c8_controller_serial_protocol_witness :
    Controller.new.read_from_controller = (0, Controller.new) ∧
    ((⟨true, 5, 0⟩ : Controller).write_to_controller false).reads 8 =
      [1, 0, 1, 0, 0, 0, 0, 0] ∧
    (⟨false, 5, 8⟩ : Controller).read_from_controller = (1, ⟨false, 5, 8⟩) :=
  ⟨(c8_controller_serial_protocol.1 Controller.new Controller.Reachable.new rfl),
   (c8_controller_serial_protocol.2.1 ⟨true, 5, 0⟩).1,
   (c8_controller_serial_protocol.2.2 ⟨false, 5, 8⟩ rfl rfl)⟩

/-- Writing the low 5 bits into 0x3F00 with a bitwise or is plain
addition. -/
theorem lor_3F00_small : ∀ r < 32, 0x3F00 ||| r = 0x3F00 + r := by
  decide

/-- Every palette write inside 0x3F00..=0x3F1F lands in some arm of
`set_entry`. -/
theorem set_entry_total : ∀ r < 32, ∀ (p : PaletteMemory) (v : Nat),
    ∃ pm, p.set_entry (0x3F00 + r) v = some pm := by
  intro r hr p v
  interval_cases r <;> exact ⟨_, rfl⟩

/-- Every palette read inside 0x3F00..=0x3F1F succeeds. -/
theorem get_entry_total : ∀ r < 32, ∀ p : PaletteMemory,
    ∃ x, p.get_entry (0x3F00 + r) = some x := by
  intro r hr p
  interval_cases r <;> exact ⟨_, rfl⟩

/-- The VRAM increment adds exactly 1 or 32 (PPUCTRL.VRAM_INC), with no
reduction modulo 0x4000, and changes nothing else about the registers. -/
theorem inc_vram_ppuaddr (b : Bus) :
    (b.ppu_increment_vram_ptr).ppuRegisters.ppuaddr =
      b.ppuRegisters.ppuaddr +
        (if b.ppuRegisters.ppuctrl.testBit PPUCTRL.VRAM_INC then 32 else 1) ∧
    (b.ppu_increment_vram_ptr).ppuRegisters.ppuctrl = b.ppuRegisters.ppuctrl := by
  unfold Bus.ppu_increment_vram_ptr
  by_cases h : b.ppuRegisters.ppuctrl.testBit PPUCTRL.VRAM_INC <;> simp [h]

/-- A PPUDATA (0x2007) read in the palette window succeeds and ends in
`ppu_increment_vram_ptr`. -/
theorem read2007_palette (b : Bus)
    (h1 : 0x3F00 ≤ b.ppuRegisters.ppuaddr) (h2 : b.ppuRegisters.ppuaddr ≤ 0x3FFF) :
    ∃ v, b.cpu_read_ppu_register 0x2007 true =
      RtResult.ok (v, b.ppu_increment_vram_ptr) := by
  have hr : b.ppuRegisters.ppuaddr % 0x20 < 32 :=
    Nat.mod_lt _ (by norm_num)
  obtain ⟨x, hx⟩ := get_entry_total (b.ppuRegisters.ppuaddr % 0x20) hr b.paletteMemory
  refine ⟨x, ?_⟩
  unfold Bus.cpu_read_ppu_register
  norm_num
  rw [if_neg (by omega), if_neg (by omega), if_pos ⟨h1, h2⟩,
    lor_3F00_small _ hr, hx]

/-- A PPUDATA (0x2007) write in the palette window succeeds and ends in
`ppu_increment_vram_ptr` applied to a bus that differs only in palette
memory. -/
theorem write2007_palette (b : Bus) (w : Nat)
    (h1 : 0x3F00 ≤ b.ppuRegisters.ppuaddr) (h2 : b.ppuRegisters.ppuaddr ≤ 0x3FFF) :
    ∃ pm, b.cpu_write_ppu_register 0x2007 w =
      RtResult.ok ({ b with paletteMemory := pm } : Bus).ppu_increment_vram_ptr := by
  have hr : b.ppuRegisters.ppuaddr % 0x20 < 32 :=
    Nat.mod_lt _ (by norm_num)
  obtain ⟨pm, hpm⟩ :=
    set_entry_total (b.ppuRegisters.ppuaddr % 0x20) hr b.paletteMemory w
  refine ⟨pm, ?_⟩
  unfold Bus.cpu_write_ppu_register
  norm_num
  rw [if_neg (by omega), if_neg (by omega), if_pos ⟨h1, h2⟩,
    lor_3F00_small _ hr, hpm]

/-- C10: the post-access VRAM increment adds 1 or 32 with no modulo; a
PPUDATA access in the palette window whose increment crosses 0x3FFF
parks the pointer at or above 0x4000; while the pointer is at or above
0x4000 every PPUDATA read or write fails with a bus error (and, returning
early, does not move the pointer, so the error repeats); and rewriting
PPUADDR via two 0x2006 writes brings the pointer back below 0x4000. -/
theorem c10_vram_pointer_saturation (b : Bus) (w hi lo : Nat) :
    ((b.ppu_increment_vram_ptr).ppuRegisters.ppuaddr =
      b.ppuRegisters.ppuaddr +
        (if b.ppuRegisters.ppuctrl.testBit PPUCTRL.VRAM_INC then 32 else 1)) ∧
    (0x3F00 ≤ b.ppuRegisters.ppuaddr → b.ppuRegisters.ppuaddr ≤ 0x3FFF →
      0x4000 ≤ b.ppuRegisters.ppuaddr +
        (if b.ppuRegisters.ppuctrl.testBit PPUCTRL.VRAM_INC then 32 else 1) →
      (∃ v b1, b.cpu_read_ppu_register 0x2007 true = RtResult.ok (v, b1) ∧
        0x4000 ≤ b1.ppuRegisters.ppuaddr) ∧
      (∃ b2, b.cpu_write_ppu_register 0x2007 w = RtResult.ok b2 ∧
        0x4000 ≤ b2.ppuRegisters.ppuaddr)) ∧
    (0x4000 ≤ b.ppuRegisters.ppuaddr →
      b.cpu_read_ppu_register 0x2007 true = RtResult.err "Bad read from PPU Bus by CPU" ∧
      b.cpu_write_ppu_register 0x2007 w = RtResult.err "Bad write to PPU Bus by CPU") ∧
    (b.ppuRegisters.writeLatch = false →
      ∃ b1 b2, b.cpu_write_ppu_register 0x2006 hi = RtResult.ok b1 ∧
        b1.cpu_write_ppu_register 0x2006 lo = RtResult.ok b2 ∧
        b2.ppuRegisters.ppuaddr < 0x4000) := by
  refine ⟨(inc_vram_ppuaddr b).1, ?_, ?_, ?_⟩
  · intro h1 h2 h3
    constructor
    · obtain ⟨v, hv⟩ := read2007_palette b h1 h2
      refine ⟨v, b.ppu_increment_vram_ptr, hv, ?_⟩
      rw [(inc_vram_ppuaddr b).1]
      exact h3
    · obtain ⟨pm, hpm⟩ := write2007_palette b w h1 h2
      refine ⟨_, hpm, ?_⟩
      rw [(inc_vram_ppuaddr _).1]
      exact h3
  · intro h4
    constructor
    · unfold Bus.cpu_read_ppu_register
      norm_num
      rw [if_neg (by omega), if_neg (by omega), if_neg (by omega)]
    · unfold Bus.cpu_write_ppu_register
      norm_num
      rw [if_neg (by omega), if_neg (by omega), if_neg (by omega)]
  · intro hl
    obtain ⟨cart, cpuRam, ppuRam, oamRam, oamAddr, pd, dpa, regs, pm, ctl⟩ := b
    obtain ⟨rc, rm, rs, ra, rd, wl, fx, fy⟩ := regs
    have hwl : wl = false := hl
    subst hwl
    refine ⟨_, _, rfl, rfl, ?_⟩
    exact Nat.mod_lt _ (by norm_num)

/-- Witness for `c10_vram_pointer_saturation`: with the pointer at 0x3FFF
and increment 1 the read parks the pointer at 0x4000; with the pointer at
0x4000 both accesses fail; and PPUADDR writes of 0x3F, 0xFF restore a
pointer below 0x4000. -/
theorem c10_vram_pointer_saturation_witness :
    ((∃ v b1, busAt3FFF.cpu_read_ppu_register 0x2007 true = RtResult.ok (v, b1) ∧
        0x4000 ≤ b1.ppuRegisters.ppuaddr) ∧
      (∃ b2, busAt3FFF.cpu_write_ppu_register 0x2007 9 = RtResult.ok b2 ∧
        0x4000 ≤ b2.ppuRegisters.ppuaddr)) ∧
    (busAt4000.cpu_read_ppu_register 0x2007 true =
        RtResult.err "Bad read from PPU Bus by CPU" ∧
      busAt4000.cpu_write_ppu_register 0x2007 9 =
        RtResult.err "Bad write to PPU Bus by CPU") ∧
    (∃ b1 b2, testBus.cpu_write_ppu_register 0x2006 0x3F = RtResult.ok b1 ∧
      b1.cpu_write_ppu_register 0x2006 0xFF = RtResult.ok b2 ∧
      b2.ppuRegisters.ppuaddr < 0x4000) :=
  ⟨(c10_vram_pointer_saturation busAt3FFF 9 0 0).2.1 (by decide) (by decide)
      (by decide),
   (c10_vram_pointer_saturation busAt4000 9 0 0).2.2.1 (by decide),
   (c10_vram_pointer_saturation testBus 9 0x3F 0xFF).2.2.2 rfl⟩

/-- Setting VBLANK (`ppustatus ||| 0x80`) makes bit 7 true. -/
theorem lor80_bit7 (x : Nat) : (x ||| 0x80).testBit 7 = true := by
  rw [Nat.testBit_lor, (by decide : Nat.testBit 0x80 7 = true), Bool.or_true]

/-- Setting SPRITE0_HIT (`ppustatus ||| 0x40`) leaves bit 7 alone. -/
theorem lor40_bit7 (x : Nat) : (x ||| 0x40).testBit 7 = x.testBit 7 := by
  rw [Nat.testBit_lor, (by decide : Nat.testBit 0x40 7 = false), Bool.or_false]

/-- Clearing bits 7 and 6 (`ppustatus % 64`) leaves bit 7 clear. -/
theorem mod64_bit7 (x : Nat) : (x % 64).testBit 7 = false :=
  Nat.testBit_eq_false_of_lt (by omega)

/-- Clearing bits 7 and 6 (`ppustatus % 64`) leaves bit 6 clear. -/
theorem mod64_bit6 (x : Nat) : (x % 64).testBit 6 = false :=
  Nat.testBit_eq_false_of_lt (by omega)

/-- Bit 7 of the VBLANK mask. -/
theorem testBit_128_7 : Nat.testBit 128 7 = true := by decide

/-- Bit 7 of the SPRITE0_HIT mask. -/
theorem testBit_64_7 : Nat.testBit 64 7 = false := by decide

/-- C3: in any single `PPU.step`, when the counters land on
(scanline 241, dot 1) VBLANK is set and the NMI line is latched exactly
from PPUCTRL.NMI_ENABLE; when they land on (scanline 261, dot 1) both
VBLANK and SPRITE0_HIT end up clear; and on every other landing spot the
step leaves the VBLANK bit and the NMI line untouched (so VBLANK is set
by the step relation exactly at (241, 1)). -/
theorem c3_vblank_nmi_timing (drawS0 : Bool) (p : PPUState) (r : PPURegisters) :
    (((PPU.step drawS0 p r).1.scanlines = 241 ∧ (PPU.step drawS0 p r).1.dots = 1) →
      ((PPU.step drawS0 p r).2.1.ppustatus.testBit 7 = true ∧
       (PPU.step drawS0 p r).1.generatedInterrupt = r.ppuctrl.testBit 7)) ∧
    (((PPU.step drawS0 p r).1.scanlines = 261 ∧ (PPU.step drawS0 p r).1.dots = 1) →
      ((PPU.step drawS0 p r).2.1.ppustatus.testBit 7 = false ∧
       (PPU.step drawS0 p r).2.1.ppustatus.testBit 6 = false)) ∧
    (¬((PPU.step drawS0 p r).1.dots = 1 ∧
        ((PPU.step drawS0 p r).1.scanlines = 241 ∨
         (PPU.step drawS0 p r).1.scanlines = 261)) →
      ((PPU.step drawS0 p r).2.1.ppustatus.testBit 7 = r.ppustatus.testBit 7 ∧
       (PPU.step drawS0 p r).1.generatedInterrupt = p.generatedInterrupt)) := by
  simp only [PPU.step, PPU.vblank_checks]
  split_ifs <;>
    refine ⟨fun hc => ?_, fun hc => ?_, fun hc => ?_⟩ <;>
    simp_all [lor80_bit7, lor40_bit7, mod64_bit7, mod64_bit6, testBit_128_7,
      testBit_64_7]

/-- Witness for `c3_vblank_nmi_timing`: a step into (241, 1) with
NMI_ENABLE on, a step into (261, 1) with VBLANK and SPRITE0_HIT both set,
and an ordinary mid-frame step. -/
theorem c3_vblank_nmi_timing_witness :
    ((PPU.step false ⟨241, 0, false⟩
        { PPURegisters.default with ppuctrl := 0x80 }).2.1.ppustatus.testBit 7 = true ∧
      (PPU.step false ⟨241, 0, false⟩
        { PPURegisters.default with ppuctrl := 0x80 }).1.generatedInterrupt =
        ({ PPURegisters.default with ppuctrl := 0x80 } : PPURegisters).ppuctrl.testBit 7) ∧
    ((PPU.step false ⟨261, 0, false⟩
        { PPURegisters.default with ppustatus := 0xC0 }).2.1.ppustatus.testBit 7 = false ∧
      (PPU.step false ⟨261, 0, false⟩
        { PPURegisters.default with ppustatus := 0xC0 }).2.1.ppustatus.testBit 6 = false) ∧
    ((PPU.step false ⟨0, 21, false⟩ PPURegisters.default).2.1.ppustatus.testBit 7 =
        PPURegisters.default.ppustatus.testBit 7 ∧
      (PPU.step false ⟨0, 21, false⟩ PPURegisters.default).1.generatedInterrupt = false) :=
  ⟨(c3_vblank_nmi_timing false ⟨241, 0, false⟩
      { PPURegisters.default with ppuctrl := 0x80 }).1 (by decide),
   (c3_vblank_nmi_timing false ⟨261, 0, false⟩
      { PPURegisters.default with ppustatus := 0xC0 }).2.1 (by decide),
   (c3_vblank_nmi_timing false ⟨0, 21, false⟩ PPURegisters.default).2.2 (by decide)⟩

/-- Specification of the DMA copy loop: `n ≤ 256` bytes starting at CPU
RAM index `addr` (staying inside the 2 KiB RAM) land in OAM at
consecutive wrap-around positions starting at the current OAMADDR; OAMADDR
advances by `n` (mod 256); the CPU-visible bus fields are untouched, as
are OAM cells outside the written window. -/
theorem dma_loop_spec (n : Nat) : ∀ (b : Bus) (addr : Nat),
    addr + n ≤ 2048 → n ≤ 256 → b.oamAddr < 256 →
    ∃ b1, b.process_dma_loop addr n = RtResult.ok b1 ∧
      b1.cpuRam = b.cpuRam ∧
      b1.pendingDma = b.pendingDma ∧
      b1.dmaPageAddr = b.dmaPageAddr ∧
      b1.oamAddr = (b.oamAddr + n) % 256 ∧
      (∀ j, j < n → b1.oamRam ((b.oamAddr + j) % 256) = b.cpuRam (addr + j)) ∧
      (∀ i, (∀ j, j < n → i ≠ (b.oamAddr + j) % 256) → b1.oamRam i = b.oamRam i) := by
  induction n with
  | zero =>
    intro b addr h1 h2 h3
    refine ⟨b, rfl, rfl, rfl, rfl, ?_, ?_, ?_⟩
    · omega
    · intro j hj
      omega
    · intro i _
      rfl
  | succ n ih =>
    intro b addr h1 h2 h3
    have haddr : addr < 2048 := by omega
    have hstep : b.process_dma_loop addr (n + 1) =
        Bus.process_dma_loop
          { b with oamRam := upd b.oamRam b.oamAddr (b.cpuRam addr)
                   oamAddr := (b.oamAddr + 1) % 256 }
          (addr + 1) n := by
      rw [Bus.process_dma_loop, if_pos haddr]
      rfl
    obtain ⟨b1, hloop, hcpu, hpd, hdpa, hoam, hcopy, hkeep⟩ :=
      ih { b with oamRam := upd b.oamRam b.oamAddr (b.cpuRam addr)
                  oamAddr := (b.oamAddr + 1) % 256 }
        (addr + 1) (by omega) (by omega) (Nat.mod_lt _ (by norm_num))
    refine ⟨b1, by rw [hstep, hloop], hcpu, hpd, hdpa, ?_, ?_, ?_⟩
    · rw [hoam]
      simp only []
      omega
    · intro j hj
      match j, hj with
      | 0, _ =>
        have hne : ∀ j2, j2 < n →
            b.oamAddr ≠ (((b.oamAddr + 1) % 256) + j2) % 256 := by
          intro j2 hj2
          omega
        have := hkeep b.oamAddr (by simpa using hne)
        rw [Nat.add_zero, Nat.mod_eq_of_lt h3, this]
        simp [upd, Nat.add_zero]
      | j + 1, hj =>
        have hidx : ((b.oamAddr + (j + 1)) % 256) =
            ((((b.oamAddr + 1) % 256) + j) % 256) := by
          omega
        have := hcopy j (by omega)
        rw [hidx]
        simpa [Nat.add_assoc, Nat.add_comm, Nat.add_left_comm] using this
    · intro i hi
      have hne : ∀ j, j < n → i ≠ (((b.oamAddr + 1) % 256) + j) % 256 := by
        intro j hj
        have := hi (j + 1) (by omega)
        omega
      have h0 : i ≠ b.oamAddr := by
        have := hi 0 (by omega)
        omega
      rw [hkeep i (by simpa using hne)]
      simp [upd, h0]

/-- C4 counterexample: the claim quantifies over every page value H, but
`process_dma` reads `cpu_ram[addr]` directly, so for H = 0x08 the very
first DMA fetch indexes one past the 2 KiB CPU RAM and the emulator
panics instead of copying the page. -/
theorem c4_dma_page_out_of_ram :
    (Bus.cpu_write_byte testBus 0x4014 0x08).bind Bus.process_dma =
      RtResult.crash := by
  rfl

/-- C4 amended: for a page value H < 0x08 (the pages that actually lie in
CPU RAM), writing H to 0x4014 sets the pending-DMA flag with page address
H*0x100, and `process_dma` copies the 256 bytes of that CPU RAM page into
OAM via repeated OAMDATA writes starting at OAMADDR and wrapping (OAMADDR
returns to its old value), then clears the flag; the orchestrator's DMA
branch always stalls the CPU for 513 cycles (no 514-cycle case exists in
the code). -/
theorem c4_oam_dma (b : Bus) (page : Nat) (hp : page < 8)
    (hoam : b.oamAddr < 256) :
    ∃ b1 b2, Bus.cpu_write_byte b 0x4014 page = RtResult.ok b1 ∧
      b1.pendingDma = true ∧
      b1.dmaPageAddr = page * 256 ∧
      b1.process_dma = RtResult.ok b2 ∧
      b2.pendingDma = false ∧
      b2.oamAddr = b.oamAddr ∧
      (∀ j, j < 256 → b2.oamRam ((b.oamAddr + j) % 256) = b.cpuRam (page * 256 + j)) ∧
      (∀ c, NES.loop_cycles true b1 c = 513) := by
  refine ⟨{ b with dmaPageAddr := page * 256, pendingDma := true }, ?_⟩
  obtain ⟨bL, hloop, hcpu, hpd, hdpa, hoamL, hcopy, hkeep⟩ :=
    dma_loop_spec 256
      { b with dmaPageAddr := page * 256, pendingDma := true }
      (page * 256) (by omega) (by omega) hoam
  refine ⟨{ bL with pendingDma := false }, rfl, rfl, rfl, ?_, rfl, ?_, ?_, ?_⟩
  · unfold Bus.process_dma
    simp only []
    rw [hloop]
    rfl
  · rw [hoamL]
    simp only []
    omega
  · intro j hj
    exact hcopy j hj
  · intro c
    rfl

/-- Witness for `c4_oam_dma`: page 2 on a fresh bus, as in the spec's OAM
DMA scenario. -/
theorem c4_oam_dma_witness :
    (2 : Nat) < 8 ∧ testBus.oamAddr < 256 ∧
    (∃ b1 b2, Bus.cpu_write_byte testBus 0x4014 2 = RtResult.ok b1 ∧
      b1.pendingDma = true ∧
      b1.dmaPageAddr = 2 * 256 ∧
      b1.process_dma = RtResult.ok b2 ∧
      b2.pendingDma = false ∧
      b2.oamAddr = testBus.oamAddr ∧
      (∀ j, j < 256 →
        b2.oamRam ((testBus.oamAddr + j) % 256) = testBus.cpuRam (2 * 256 + j)) ∧
      (∀ c, NES.loop_cycles true b1 c = 513)) :=
  ⟨by norm_num, by decide, c4_oam_dma testBus 2 (by norm_num) (by decide)⟩

end NESEmu
